import Mathlib

/-!
Shallow embedding of the core of `tools.py` from the ABI_Hackastra repository:
the output formatters (`format_dataframe_output`, `format_series_output`,
`format_scalar_output`), the customer order lookup (`get_customer_orders`),
the business code executor boundary (`execute_pandas_code_business`), and the
two audit checks (`check_for_critical_delays`, `check_for_revenue_anomalies`).

Modelling conventions:
* Python strings are Lean `String`s; `str.strip()` / `.upper()` / `.lower()`
  are embedded for the ASCII identifiers the program handles.
* A Python float is embedded as `PyFloat`: either `nan`, or an exact value
  `c / 100` given by its integer count of hundredths (`cents c`).  Every float
  rendering in the program uses exactly two decimal places, so this carries
  precisely the information the formatters consume.
* pandas timestamps are embedded as a calendar `Date` (for `strftime` style
  rendering) together with `daysFromCivil` (the standard civil-calendar day
  number) for ordering and day arithmetic; `datetime.now()` is a `Timestamp`,
  a date plus seconds elapsed since that date's midnight.
* pandas dataframes are lists of rows; `merge(..., how := left)` is embedded
  as `leftMergeProducts` / `nameMatches`, producing one output row per
  matching pair and a single all-null row when there is no match.
-/

namespace ABI

/-- Python `str.isspace` characters relevant to `str.strip()` (ASCII range). -/
def isPySpace (c : Char) : Bool :=
  c == ' ' || c == '\t' || c == '\n' || c == '\x0d' || c == '\x0b' || c == '\x0c'

/-- Embedding of Python `str.strip()` (no argument form). -/
def pyStrip (s : String) : String :=
  ⟨((s.data.dropWhile isPySpace).reverse.dropWhile isPySpace).reverse⟩

/-- Embedding of Python `str.upper()` on the ASCII identifiers the program uses. -/
def pyUpper (s : String) : String := ⟨s.data.map Char.toUpper⟩

/-- Embedding of Python `str.lower()` on the ASCII column names the program uses. -/
def pyLower (s : String) : String := ⟨s.data.map Char.toLower⟩

/-- `charsHasPre needle hay` decides whether `needle` is an initial segment of `hay`. -/
def charsHasPre : List Char → List Char → Bool
  | [], _ => true
  | _ :: _, [] => false
  | a :: as, b :: bs => a == b && charsHasPre as bs

/-- `charsContains hay needle` decides whether `needle` occurs contiguously in `hay`. -/
def charsContains : List Char → List Char → Bool
  | [], needle => charsHasPre needle []
  | h :: t, needle => charsHasPre needle (h :: t) || charsContains t needle

/-- Embedding of the Python substring test `needle in hay`. -/
def strContains (hay needle : String) : Bool :=
  charsContains hay.data needle.data

/-- Embedding of the Python test `hay.startswith(p)`. -/
def strStarts (hay p : String) : Bool :=
  charsHasPre p.data hay.data

/-- Zero padding to two digits, as `strftime` and `f-string 02d` produce. -/
def pad2 (n : Nat) : String :=
  if n < 10 then "0" ++ toString n else toString n

/-- Zero padding to four digits, as `strftime %Y` produces. -/
def pad4 (n : Nat) : String :=
  if n < 10 then "000" ++ toString n
  else if n < 100 then "00" ++ toString n
  else if n < 1000 then "0" ++ toString n
  else toString n

/-- Insert a comma after every third character, counting from the right; the
input is given least-significant-first (already reversed). -/
def commasRev : List Char → List Char
  | [] => []
  | [a] => [a]
  | [a, b] => [a, b]
  | [a, b, c] => [a, b, c]
  | a :: b :: c :: rest => a :: b :: c :: ',' :: commasRev rest

/-- Thousands grouping of a natural number, as Python `f-string ,` produces. -/
def groupNat (n : Nat) : String :=
  ⟨(commasRev (toString n).data.reverse).reverse⟩

/-- Thousands grouping of a Python int, `f-string ,` (sign then grouped digits). -/
def groupInt (n : Int) : String :=
  (if n < 0 then "-" else "") ++ groupNat n.natAbs

/-- A Python float as the formatters observe it: `nan`, or the exact value
`c / 100` (every rendering in `tools.py` rounds to two decimal places). -/
inductive PyFloat
  | nan
  | cents (c : Int)
  deriving DecidableEq

/-- Embedding of Python `f-string .2f`: fixed two decimals, no grouping.
`f-string .2f` applied to `nan` yields the text `nan`. -/
def pyFixed2 : PyFloat → String
  | .nan => "nan"
  | .cents c =>
      (if c < 0 then "-" else "") ++ toString (c.natAbs / 100) ++ "." ++ pad2 (c.natAbs % 100)

/-- Embedding of Python `f-string ,.2f`: thousands grouping, two decimals. -/
def pyComma2 : PyFloat → String
  | .nan => "nan"
  | .cents c =>
      (if c < 0 then "-" else "") ++ groupNat (c.natAbs / 100) ++ "." ++ pad2 (c.natAbs % 100)

/-- Embedding of the Python pattern `f"$ value ,.2f"`: dollar sign then the
grouped two-decimal number (`$nan` on `nan`, as in Python). -/
def pyCurrency (f : PyFloat) : String := "$" ++ pyComma2 f

/-- A calendar date, as parsed by `pd.to_datetime` from the CSV date columns. -/
structure Date where
  y : Nat
  m : Nat
  d : Nat
  deriving DecidableEq

/-- Day number of a civil calendar date (days since 1970-01-01, the standard
`days_from_civil` algorithm); gives pandas `Timestamp` ordering and the day
arithmetic behind `timedelta.days`. -/
def daysFromCivil (y m d : Int) : Int :=
  let yy := if m ≤ 2 then y - 1 else y
  let era := Int.fdiv yy 400
  let yoe := yy - era * 400
  let mp := Int.emod (m + 9) 12
  let doy := Int.fdiv (153 * mp + 2) 5 + d - 1
  let doe := yoe * 365 + Int.fdiv yoe 4 - Int.fdiv yoe 100 + doy
  era * 146097 + doe - 719468

/-- Day number of a `Date`. -/
def Date.toDay (dt : Date) : Int :=
  daysFromCivil (Int.ofNat dt.y) (Int.ofNat dt.m) (Int.ofNat dt.d)

/-- Embedding of `strftime` with format `%Y-%m-%d`. -/
def renderDate (dt : Date) : String :=
  pad4 dt.y ++ "-" ++ pad2 dt.m ++ "-" ++ pad2 dt.d

/-- A wall-clock instant (`datetime.now()`): a date plus the seconds elapsed
since that date's midnight. -/
structure Timestamp where
  date : Date
  sec : Nat
  deriving DecidableEq

/-- Absolute second count of a date's midnight (the value `pd.to_datetime`
gives a bare date). -/
def dateAbs (dt : Date) : Int := dt.toDay * 86400

/-- Absolute second count of a wall-clock instant. -/
def tsAbs (t : Timestamp) : Int := dateAbs t.date + Int.ofNat t.sec

/-- Embedding of Python `(now - est).days`: floor of the difference in days. -/
def daysBetween (now : Timestamp) (est : Date) : Int :=
  Int.fdiv (tsAbs now - dateAbs est) 86400

/-! ## The relational data model (section 3 of the spec, `load_data` in `tools.py`) -/

/-- A row of `customers.csv`: `customer_id, name, email, region`. -/
structure CustomerRow where
  customer_id : String
  name : String
  email : String
  region : String
  deriving DecidableEq

/-- A row of `products.csv`: `product_id, name, category, price, stock_level`. -/
structure ProductRow where
  product_id : String
  name : String
  category : String
  price : PyFloat
  stock_level : Int
  deriving DecidableEq

/-- A row of `orders.csv` after `load_data`'s type coercions: `order_date`
parsed as a date, `est_delivery` parsed with `errors := coerce`, so an
unparseable or missing value becomes `none` (NaT). -/
structure OrderRow where
  order_id : String
  customer_id : String
  product_id : String
  status : String
  order_date : Date
  est_delivery : Option Date
  deriving DecidableEq

/-- A row of `revenue.csv` after `load_data`'s type coercions. -/
structure RevenueRow where
  revenue_id : String
  order_id : String
  amount : PyFloat
  date : Date
  payment_method : String
  deriving DecidableEq

/-- The bundle of the four loaded tables (`load_data`'s success value). -/
structure Database where
  customers : List CustomerRow
  orders : List OrderRow
  products : List ProductRow
  revenue : List RevenueRow
  deriving DecidableEq

/-! ## Cell values and the output formatters (`tools.py` lines 76-173) -/

/-- A value observed in a dataframe cell or series entry.  The `dt`
constructor marks values of datetime64-typed columns (possibly NaT); `flt`
covers Python floats including `nan`; `null` covers non-float missing values
(a `None` in an object column). -/
inductive PyVal
  | dt (d : Option Date)
  | flt (f : PyFloat)
  | int (n : Int)
  | str (s : String)
  | null
  deriving DecidableEq

/-- `str(value)` for a cell value, as an f-string interpolates it. -/
def pyValStr : PyVal → String
  | .dt (some d) => renderDate d ++ " 00:00:00"
  | .dt none => "NaT"
  | .flt .nan => "nan"
  | .flt (.cents c) =>
      (if c < 0 then "-" else "") ++ toString (c.natAbs / 100) ++ "." ++
        (if c.natAbs % 100 % 10 == 0 then toString (c.natAbs % 100 / 10) else pad2 (c.natAbs % 100))
  | .int n => toString n
  | .str s => s
  | .null => "None"

/-- The column-name test of `format_dataframe_output` line 112: the lowercased
name contains `amount`, `price` or `revenue`. -/
def isMoneyCol (col : String) : Bool :=
  strContains (pyLower col) "amount" || strContains (pyLower col) "price" ||
    strContains (pyLower col) "revenue"

/-- Per-cell rendering of `format_dataframe_output` (lines 106-117): datetime
columns render `strftime %Y-%m-%d` or `N/A` on NaT; then any float instance
(including `nan`, which Python's `isinstance(value, float)` accepts) renders
two-decimal currency or plain two-decimal text by column name; then any other
missing value renders `N/A`; everything else interpolates as `str(value)`. -/
def renderCell (col : String) : PyVal → String
  | .dt (some d) => renderDate d
  | .dt none => "N/A"
  | .flt f => if isMoneyCol col then pyCurrency f else pyFixed2 f
  | .null => "N/A"
  | .int n => toString n
  | .str s => s

/-- A dataframe index label: a Python int, or any other label interpolated as
text (`f"Record idx+1 if isinstance(idx, int) else idx"`, line 104). -/
inductive IdxLabel
  | i (n : Int)
  | s (t : String)
  deriving DecidableEq

/-- The record header of line 104: an int index renders incremented by one. -/
def renderIdx : IdxLabel → String
  | .i n => toString (n + 1)
  | .s t => t

/-- A dataframe: column names and indexed rows (one cell list per row). -/
structure DataFrame where
  cols : List String
  rows : List (IdxLabel × List PyVal)
  deriving DecidableEq

/-- The line of 70 box-drawing dashes (`"─" * 70`). -/
def sep70 : String := ⟨List.replicate 70 '─'⟩

/-- The line of 50 box-drawing dashes (`"─" * 50`). -/
def sep50 : String := ⟨List.replicate 50 '─'⟩

/-- Concatenation of a list of strings, in order (the accumulation of the
`output +=` lines of the formatters). -/
def strConcat : List String → String
  | [] => ""
  | s :: rest => s ++ strConcat rest

/-- One record block of `format_dataframe_output` (lines 103-118). -/
def renderRecord (cols : List String) (r : IdxLabel × List PyVal) : String :=
  "▸ Record " ++ renderIdx r.1 ++ ":\n" ++
    strConcat ((cols.zip r.2).map fun cv => "  • " ++ cv.1 ++ ": " ++ renderCell cv.1 cv.2 ++ "\n") ++
    "\n"

/-- The displayed record blocks: `df.head(max_rows)` rendered one block per row. -/
def fdo_blocks (df : DataFrame) (max_rows : Nat) : List String :=
  (df.rows.take max_rows).map (renderRecord df.cols)

/-- Embedding of `format_dataframe_output` (`tools.py` lines 76-123) on a
dataframe argument.  (The source's first two lines convert a Series argument
to a one-column frame and stringify non-frame arguments; the executor only
reaches this function with a dataframe, which is the case embedded here.) -/
def format_dataframe_output (df : DataFrame) (max_rows : Nat) : String :=
  "📊 Total Records: " ++ toString df.rows.length ++ "\n" ++
    (if max_rows < df.rows.length then "📋 Showing first " ++ toString max_rows ++ " rows\n" else "") ++
    sep70 ++ "\n\n" ++
    strConcat (fdo_blocks df max_rows) ++
    (if max_rows < df.rows.length then
      "⋯ and " ++ toString (df.rows.length - max_rows) ++ " more records\n"
    else "")

/-- A pandas Series as the formatter observes it: indexed entries. -/
structure Series where
  items : List (String × PyVal)
  deriving DecidableEq

/-- Per-entry value rendering of `format_series_output` (lines 140-144):
floats render as currency when the semantic name contains `amount` or
`revenue`, else grouped two-decimal; other values interpolate as `str`. -/
def renderSeriesValue (name : String) : PyVal → String
  | .flt f =>
      if strContains (pyLower name) "amount" || strContains (pyLower name) "revenue" then
        pyCurrency f
      else pyComma2 f
  | v => pyValStr v

/-- Embedding of `format_series_output` (`tools.py` lines 125-148). -/
def format_series_output (s : Series) (name : String) : String :=
  "📊 Analysis Results (" ++ toString s.items.length ++ " items)\n" ++ sep70 ++ "\n\n" ++
    strConcat (s.items.map fun iv => "▸ " ++ iv.1 ++ ": " ++ renderSeriesValue name iv.2 ++ "\n")

/-- A scalar as `format_scalar_output` observes it: a Python int, a Python
float (numpy floats are float instances), or any other value via `str`
(numpy ints are not Python int instances and take this branch). -/
inductive ScalarVal
  | i (n : Int)
  | f (x : PyFloat)
  | raw (s : String)
  deriving DecidableEq

/-- Embedding of `format_scalar_output` (`tools.py` lines 150-173): floats
render as currency, ints as a thousands-grouped plain number, anything else
interpolates as text. -/
def format_scalar_output (value : ScalarVal) (description : String) : String :=
  "📊 " ++ description ++ "\n" ++ sep70 ++ "\n\n" ++
    (match value with
      | .f x => "▸ " ++ pyCurrency x ++ "\n"
      | .i n => "▸ " ++ groupInt n ++ "\n"
      | .raw s => "▸ " ++ s ++ "\n")

/-! ## Customer order lookup (`get_customer_orders`, `tools.py` lines 177-245) -/

/-- The normalisation of line 197: `str(customer_id).strip().upper()`. -/
def cleanId (customer_id : String) : String := pyUpper (pyStrip customer_id)

/-- Left merge of an order list against the product table on `product_id`
(line 206-208): one output row per matching product row, and a single row
with null product fields when no product matches. -/
def leftMergeProducts (orders : List OrderRow) (products : List ProductRow) :
    List (OrderRow × Option ProductRow) :=
  orders.flatMap fun o =>
    match products.filter (fun p => p.product_id == o.product_id) with
    | [] => [(o, none)]
    | ps => ps.map fun p => (o, some p)

/-- The orders-products join for one normalised customer id. -/
def customerJoin (db : Database) (clean_id : String) : List (OrderRow × Option ProductRow) :=
  leftMergeProducts (db.orders.filter fun o => o.customer_id == clean_id) db.products

/-- Product name as the merged row carries it (`NaN` interpolates as `nan`
when the left merge found no product). -/
def prodName : Option ProductRow → String
  | some p => p.name
  | none => "nan"

/-- Product category of the merged row, `nan` when unmatched. -/
def prodCat : Option ProductRow → String
  | some p => p.category
  | none => "nan"

/-- Product price of the merged row, float `nan` when unmatched. -/
def prodPrice : Option ProductRow → PyFloat
  | some p => p.price
  | none => .nan

/-- The guard of the delay line (line 237): the status is not `Delivered`
and `datetime.now()` is past the `est_delivery` midnight timestamp; NaT
(absent `est_delivery`) never enters this branch (line 233). -/
def delayFlagShown (now : Timestamp) (o : OrderRow) : Bool :=
  match o.est_delivery with
  | some ed => o.status != "Delivered" && decide (dateAbs ed < tsAbs now)
  | none => false

/-- The delay condition as the specification sentence reads it — the current
DATE strictly after `est_delivery`, status not `Delivered`, `est_delivery`
known — stated for comparison with `delayFlagShown`, the guard the code
actually evaluates (which compares the full current instant against the
`est_delivery` midnight). -/
def specDelayCond (now : Timestamp) (o : OrderRow) : Bool :=
  match o.est_delivery with
  | some ed => o.status != "Delivered" && decide (ed.toDay < now.date.toDay)
  | none => false

/-- One per-order block of the lookup report (lines 225-243). -/
def renderOrderBlock (now : Timestamp) (r : OrderRow × Option ProductRow) : String :=
  "\n▸ Order ID: " ++ r.1.order_id ++ "\n" ++
    "  Product: " ++ prodName r.2 ++ " (" ++ prodCat r.2 ++ ")\n" ++
    "  Price: $" ++ pyFixed2 (prodPrice r.2) ++ "\n" ++
    "  Status: " ++ r.1.status ++ "\n" ++
    "  Order Date: " ++ renderDate r.1.order_date ++ "\n" ++
    (match r.1.est_delivery with
      | some ed =>
          "  Est. Delivery: " ++ renderDate ed ++ "\n" ++
            (if delayFlagShown now r.1 then
              "  ⚠️ DELAYED: " ++ toString (daysBetween now ed) ++ " day(s) overdue\n"
            else "")
      | none => "  Est. Delivery: N/A\n") ++
    sep50 ++ "\n"

/-- The customer header of the lookup report (lines 219-223). -/
def lookupHeader (c : CustomerRow) (clean_id : String) (orderCount : Nat) : String :=
  "👤 Customer: " ++ c.name ++ " (ID: " ++ clean_id ++ ")\n" ++
    "📧 Email: " ++ c.email ++ "\n" ++
    "📍 Region: " ++ c.region ++ "\n" ++
    "📦 Total Orders: " ++ toString orderCount ++ "\n\n" ++
    sep50 ++ "\n"

/-- Embedding of `get_customer_orders` (`tools.py` lines 177-245), on a
successfully loaded `Database` and the current instant `now`. -/
def get_customer_orders (db : Database) (now : Timestamp) (customer_id : String) : String :=
  match db.customers.filter (fun c => c.customer_id == cleanId customer_id) with
  | [] => "ERROR: Customer ID \x27" ++ cleanId customer_id ++ "\x27 not found in the system."
  | c :: _ =>
      if (customerJoin db (cleanId customer_id)).isEmpty then
        "Hello " ++ c.name ++ "! You currently have no orders in the system."
      else
        (customerJoin db (cleanId customer_id)).foldl (fun acc r => acc ++ renderOrderBlock now r)
          (lookupHeader c (cleanId customer_id) (customerJoin db (cleanId customer_id)).length)

/-! ## Business executor boundary (`execute_pandas_code_business`, lines 250-323) -/

/-- The value the snippet left bound to `result`, as the dispatch chain of
lines 303-311 classifies it: dataframe, series, Python int/float scalar,
numpy integer scalar (not a Python `int` instance, so `format_scalar_output`
stringifies it), Python `None`, or anything else via `str`. -/
inductive ResultValue
  | pyNone
  | df (d : DataFrame)
  | series (s : Series)
  | intV (n : Int)
  | floatV (x : PyFloat)
  | npInt (n : Int)
  | other (text : String)

/-- The observable outcome of `exec(python_code, dict, local_env)`: either a
raised fault (an `Exception`-derived error, with its message and formatted
traceback), or normal completion with a final variable environment. -/
inductive ExecOutcome
  | raises (msg : String) (tb : String)
  | ok (env : String → Option ResultValue)

/-- The fixed remediation checklist appended to every execution fault
(lines 318-322). -/
def commonIssuesText : String :=
  "Common issues:\n" ++
    "- Check column names match the schema exactly (case-sensitive)\n" ++
    "- Ensure you\x27re using correct merge keys (customer_id, product_id, order_id)\n" ++
    "- Use suffixes when joining tables with duplicate column names (e.g., \x27name\x27 in customers and products)\n" ++
    "- Verify dataframe names: customers_df, orders_df, products_df, revenue_df"

/-- The fixed missing-`result` error string (line 313). -/
def resultMissingText : String :=
  "❌ Error: The code ran, but no variable named \x27result\x27 was defined. Please assign the final answer to \x27result\x27."

/-- Embedding of `execute_pandas_code_business` (`tools.py` lines 250-323)
after a successful `load_data`, as a function of the snippet's execution
outcome.  The Lean function is total: every outcome, raising included, maps
to a returned string, mirroring the `try/except Exception` boundary that
never propagates a fault. -/
def execute_pandas_code_business : ExecOutcome → String
  | .raises msg tb =>
      "Python Execution Error: " ++ msg ++ "\n" ++ "Traceback: " ++ tb ++ "\n\n" ++
        commonIssuesText
  | .ok env =>
      match env "result" with
      | none => resultMissingText
      | some .pyNone => "⚠️ Warning: The calculation returned None. Please check your code logic."
      | some (.df d) => format_dataframe_output d 10
      | some (.series s) => format_series_output s "Value"
      | some (.intV n) => format_scalar_output (.i n) "Result"
      | some (.floatV x) => format_scalar_output (.f x) "Result"
      | some (.npInt n) => format_scalar_output (.raw (toString n)) "Result"
      | some (.other text) => text

/-- Embedding of `pandas.Series.sum()` over an `amount` column at the
two-decimal precision the data carries: NaN entries are skipped
(`skipna` defaults to true), and the empty sum is `0.0`. -/
def seriesSum (xs : List PyFloat) : PyFloat :=
  .cents (xs.foldl (fun acc x => match x with | .nan => acc | .cents c => acc + c) 0)

/-! ## Audit checks (`tools.py` lines 328-389) -/

/-- The delay predicate of `check_for_critical_delays` (lines 368-373):
`est_delivery < today` (false on NaT, exactly as in pandas), status neither
`Delivered` nor `Cancelled`, and `est_delivery` non-null. -/
def critDelayed (today : Date) (o : OrderRow) : Bool :=
  match o.est_delivery with
  | some ed => decide (ed.toDay < today.toDay) && o.status != "Delivered" && o.status != "Cancelled"
  | none => false

/-- The same predicate as a proposition. -/
def CritDelayedProp (today : Date) (o : OrderRow) : Prop :=
  (∃ ed, o.est_delivery = some ed ∧ ed.toDay < today.toDay) ∧
    o.status ≠ "Delivered" ∧ o.status ≠ "Cancelled"

/-- Customer names contributed by one delayed order under the left merge of
lines 379-381: every matching customer row's name, or the interpolation of
`NaN` (`nan`) when the id resolves to no customer. -/
def nameMatches (customers : List CustomerRow) (o : OrderRow) : List String :=
  match customers.filter (fun c => c.customer_id == o.customer_id) with
  | [] => ["nan"]
  | cs => cs.map (fun c => c.name)

/-- Embedding of `check_for_critical_delays` (`tools.py` lines 354-389) on a
successfully loaded `Database`; `today` is
`pd.to_datetime(datetime.now().strftime(%Y-%m-%d))`, the current date at
midnight. -/
def check_for_critical_delays (db : Database) (today : Date) : String :=
  let delayed := db.orders.filter (critDelayed today)
  if delayed.isEmpty then
    "SUCCESS: No critical delivery delays found."
  else
    "ALERT: " ++ toString delayed.length ++ " orders are critically delayed!\n" ++
      "Affected Orders: " ++ String.intercalate ", " ((delayed.map (fun o => o.order_id)).take 3) ++
      "\nAffected Customers: " ++
      String.intercalate ", " ((delayed.flatMap (nameMatches db.customers)).take 3)

/-- Embedding of `check_for_revenue_anomalies` (`tools.py` lines 328-351) on
the loaded revenue table.  The `IsolationForest(contamination 0.1,
random_state 42)` outlier model of the long branch is abstracted as the
`isOutlier` oracle; the under-5-rows guard (lines 338-339) runs before any
model is fitted and is independent of it. -/
def check_for_revenue_anomalies (revenue : List RevenueRow)
    (isOutlier : RevenueRow → Bool) : String :=
  if revenue.length < 5 then
    "Not enough data points to run anomaly detection."
  else
    match (revenue.filter isOutlier).getLast? with
    | some a =>
        "CRITICAL REVENUE ANOMALY: Unusual pattern on " ++ renderDate a.date ++
          " - Amount: " ++ pyCurrency a.amount ++ " (Order: " ++ a.order_id ++ ")."
    | none => "SUCCESS: No significant revenue anomalies detected."

/-! ## Concrete sample data used to instantiate the theorems -/

/-- A sample customer. -/
def exCust : CustomerRow := ⟨"CUST_001", "Alice Smith", "alice@example.com", "West"⟩

/-- A sample product. -/
def exProd : ProductRow := ⟨"P1", "Widget", "Tools", .cents 1999, 5⟩

/-- A sample shipped order whose estimated delivery is 2026-10-12. -/
def exOrder : OrderRow := ⟨"ORD_1", "CUST_001", "P1", "Shipped", ⟨2026, 10, 1⟩, some ⟨2026, 10, 12⟩⟩

/-- A one-customer, one-order sample database. -/
def exDb : Database := ⟨[exCust], [exOrder], [exProd], []⟩

/-- A sample instant: 2026-10-12 at 01:00, the estimated delivery day itself. -/
def exNow : Timestamp := ⟨⟨2026, 10, 12⟩, 3600⟩

/-- A sample pending order past its estimated delivery. -/
def exOrder2 : OrderRow := ⟨"ORD_9", "CUST_002", "P1", "Pending", ⟨2026, 9, 1⟩, some ⟨2026, 9, 20⟩⟩

/-- The customer owning `exOrder2`. -/
def exCust2 : CustomerRow := ⟨"CUST_002", "Bob Jones", "bob@example.com", "East"⟩

/-- A database whose single order is critically delayed on 2026-10-01. -/
def exDb2 : Database := ⟨[exCust2], [exOrder2], [], []⟩

/-- Four revenue rows with extreme amounts: below the 5-row threshold. -/
def exRevRows : List RevenueRow :=
  [⟨"R1", "ORD_1", .cents 999999999, ⟨2026, 1, 1⟩, "Card"⟩,
   ⟨"R2", "ORD_2", .cents (-50000), ⟨2026, 1, 2⟩, "Cash"⟩,
   ⟨"R3", "ORD_3", .cents 1, ⟨2026, 1, 3⟩, "Card"⟩,
   ⟨"R4", "ORD_4", .cents 123456, ⟨2026, 1, 4⟩, "Wire"⟩]

/-- A three-row, one-column dataframe over an `amount` column. -/
def exDf : DataFrame :=
  ⟨["amount"],
   [(.i 0, [.flt (.cents 10000)]), (.i 1, [.flt (.cents 20000)]), (.i 2, [.flt (.cents 30050)])]⟩

/-! ## General lemmas about the embedded operations -/

/-- A list is an initial segment of itself followed by anything. -/
theorem charsHasPre_append (p t : List Char) : charsHasPre p (p ++ t) = true := by
  induction p with
  | nil => rfl
  | cons a as ih => simp [charsHasPre, ih]

/-- `startswith` holds on any string decomposed as the sought front plus a tail. -/
theorem strStarts_of_eq_append (s p t : String) (h : s = p ++ t) : strStarts s p = true := by
  subst h
  unfold strStarts
  rw [String.data_append]
  exact charsHasPre_append _ _

/-- Folding `acc ++ f x` over a list from a seed is the seed followed by the
concatenation of the rendered elements. -/
theorem foldl_append_eq_concat {α : Type} (f : α → String) (l : List α) (s : String) :
    l.foldl (fun acc x => acc ++ f x) s = s ++ strConcat (l.map f) := by
  induction l generalizing s with
  | nil => simp [strConcat]
  | cons h t ih => simp [List.foldl, strConcat, ih, String.append_assoc]

/-- A string never equals itself with a dollar sign prepended. -/
theorem ne_dollar_prepend (s : String) : s ≠ "$" ++ s := by
  intro h
  have hl := congrArg String.length h
  rw [String.length_append] at hl
  have : ("$" : String).length = 1 := rfl
  omega

/-- The Bool delay filter of `check_for_critical_delays` agrees with its
propositional reading. -/
theorem critDelayed_iff (today : Date) (o : OrderRow) :
    critDelayed today o = true ↔ CritDelayedProp today o := by
  unfold critDelayed CritDelayedProp
  cases h : o.est_delivery with
  | none => simp
  | some ed =>
      simp only [Bool.and_eq_true, decide_eq_true_eq, bne_iff_ne, ne_eq]
      constructor
      · rintro ⟨⟨h1, h2⟩, h3⟩
        exact ⟨⟨ed, rfl, h1⟩, h2, h3⟩
      · rintro ⟨⟨ed2, he, h1⟩, h2, h3⟩
        cases Option.some.injEq .. ▸ he
        exact ⟨⟨h1, h2⟩, h3⟩

/-! ## The claims -/

/-- C1: for every snippet whose execution raises a fault,
`execute_pandas_code_business` returns (never raises — the embedded boundary
is a total function into strings) a diagnostic string equal to the fault
message followed by the traceback and the fixed checklist of common causes;
in particular the returned string contains the fault's message text. -/
theorem C1_executor_catches_faults (msg tb : String) :
    execute_pandas_code_business (.raises msg tb) =
      "Python Execution Error: " ++ msg ++ "\n" ++ "Traceback: " ++ tb ++ "\n\n" ++
        commonIssuesText
    ∧ ∃ before after, execute_pandas_code_business (.raises msg tb) = before ++ msg ++ after :=
  ⟨rfl, "Python Execution Error: ",
    "\n" ++ "Traceback: " ++ tb ++ "\n\n" ++ commonIssuesText,
    by simp only [execute_pandas_code_business, String.append_assoc]⟩

/-- C2: for every execution that completes without binding a variable named
`result`, `execute_pandas_code_business` returns the fixed instructive error
string verbatim, whatever else the final environment contains. -/
theorem C2_missing_result_fixed_error (env : String → Option ResultValue)
    (h : env "result" = none) :
    execute_pandas_code_business (.ok env) =
      "❌ Error: The code ran, but no variable named \x27result\x27 was defined. Please assign the final answer to \x27result\x27." := by
  simp only [execute_pandas_code_business, h]
  rfl

/-- C2 witness: an environment binding nothing yields the fixed error string. -/
theorem C2_witness :
    execute_pandas_code_business (.ok fun _ => none) =
      "❌ Error: The code ran, but no variable named \x27result\x27 was defined. Please assign the final answer to \x27result\x27." :=
  C2_missing_result_fixed_error (fun _ => none) rfl

/-- C8: with fewer than five revenue rows, `check_for_revenue_anomalies`
returns the fixed not-enough-data line whatever the rows contain and whatever
the outlier model would flag, and that line carries no `CRITICAL` keyword. -/
theorem C8_revenue_guard (revenue : List RevenueRow) (isOutlier : RevenueRow → Bool)
    (h : revenue.length < 5) :
    check_for_revenue_anomalies revenue isOutlier =
      "Not enough data points to run anomaly detection."
    ∧ strContains (check_for_revenue_anomalies revenue isOutlier) "CRITICAL" = false := by
  have he : check_for_revenue_anomalies revenue isOutlier =
      "Not enough data points to run anomaly detection." := by
    unfold check_for_revenue_anomalies
    rw [if_pos h]
  exact ⟨he, by rw [he]; decide⟩

/-- C8 witness: four rows of extreme amounts under an oracle flagging every
row still produce the fixed not-enough-data line. -/
theorem C8_witness :
    check_for_revenue_anomalies exRevRows (fun _ => true) =
      "Not enough data points to run anomaly detection."
    ∧ strContains (check_for_revenue_anomalies exRevRows (fun _ => true)) "CRITICAL" = false :=
  C8_revenue_guard exRevRows (fun _ => true) (by decide)

/-- C9: whenever the trimmed, uppercased customer id matches no row of the
customer table, `get_customer_orders` returns (never raises) the not-found
string, which contains the normalised id. -/
theorem C9_not_found (db : Database) (now : Timestamp) (customer_id : String)
    (h : db.customers.filter (fun c => c.customer_id == cleanId customer_id) = []) :
    get_customer_orders db now customer_id =
      "ERROR: Customer ID \x27" ++ cleanId customer_id ++ "\x27 not found in the system."
    ∧ ∃ before after,
        get_customer_orders db now customer_id = before ++ cleanId customer_id ++ after := by
  have he : get_customer_orders db now customer_id =
      "ERROR: Customer ID \x27" ++ cleanId customer_id ++ "\x27 not found in the system." := by
    simp only [get_customer_orders, h]
  exact ⟨he, "ERROR: Customer ID \x27", "\x27 not found in the system.", he⟩

/-- C1 sample instantiation: a concrete key error yields a diagnostic
containing its message. -/
theorem C1_sample :
    ∃ before after,
      execute_pandas_code_business (.raises "KeyError: \x27name\x27" "tb") = before ++ "KeyError: \x27name\x27" ++ after :=
  (C1_executor_catches_faults "KeyError: \x27name\x27" "tb").2

/-- C9 witness: the id ` nobody `, normalised to `NOBODY`, is absent from the
sample database and yields the not-found string containing `NOBODY`. -/
theorem C9_witness :
    get_customer_orders exDb exNow " nobody " =
      "ERROR: Customer ID \x27" ++ cleanId " nobody " ++ "\x27 not found in the system."
    ∧ ∃ before after,
        get_customer_orders exDb exNow " nobody " = before ++ cleanId " nobody " ++ after :=
  C9_not_found exDb exNow " nobody " (by decide)

set_option maxRecDepth 8000 in
/-- C3 counterexample: at 01:00 on the estimated delivery day itself
(`exNow.date` equals the known `est_delivery` of the Shipped order `exOrder`),
the rendered lookup output carries the DELAYED flag even though the current
date is not strictly after `est_delivery` (`specDelayCond`, the condition as
the claim states it, is false): line 237 of `tools.py` compares the full
`datetime.now()` instant against the `est_delivery` midnight. -/
theorem C3_counterexample :
    strContains (get_customer_orders exDb exNow "  cust_001 ") "DELAYED" = true
    ∧ specDelayCond exNow exOrder = false
    ∧ exOrder.est_delivery = some exNow.date
    ∧ exOrder.status ≠ "Delivered" :=
  ⟨by decide, by decide, rfl, by decide⟩

/-- C3 (amended): for a customer id resolving to a customer row, with a
non-empty orders-products join, the lookup output is the customer header
followed by exactly one rendered block per join row in join order, and a
block's DELAYED flag is shown iff the order's status is not `Delivered`, the
current instant is strictly after the `est_delivery` midnight (so the flag
can already appear on the estimated delivery day itself), and `est_delivery`
is non-null. -/
theorem C3_blocks_and_delay_flag (db : Database) (now : Timestamp) (customer_id : String)
    (c : CustomerRow) (cs : List CustomerRow)
    (hc : db.customers.filter (fun x => x.customer_id == cleanId customer_id) = c :: cs)
    (hne : customerJoin db (cleanId customer_id) ≠ []) :
    get_customer_orders db now customer_id =
        lookupHeader c (cleanId customer_id) (customerJoin db (cleanId customer_id)).length ++
          strConcat ((customerJoin db (cleanId customer_id)).map (renderOrderBlock now))
    ∧ ((customerJoin db (cleanId customer_id)).map (renderOrderBlock now)).length
        = (customerJoin db (cleanId customer_id)).length
    ∧ ∀ r ∈ customerJoin db (cleanId customer_id),
        (delayFlagShown now r.1 = true ↔
          r.1.status ≠ "Delivered" ∧ ∃ ed, r.1.est_delivery = some ed ∧ dateAbs ed < tsAbs now) := by
  have hE : (customerJoin db (cleanId customer_id)).isEmpty = false := by
    cases hl : customerJoin db (cleanId customer_id) with
    | nil => exact absurd hl hne
    | cons a l => rfl
  refine ⟨?_, List.length_map _ _, ?_⟩
  · simp only [get_customer_orders, hc, hE, Bool.false_eq_true, if_false]
    exact foldl_append_eq_concat _ _ _
  · intro r _
    cases h : r.1.est_delivery with
    | none => simp [delayFlagShown, h]
    | some ed => simp [delayFlagShown, h]

set_option maxRecDepth 8000 in
/-- C3 witness: the amended flag condition instantiated at the sample join
row of the sample database. -/
theorem C3_amended_witness :
    delayFlagShown exNow exOrder = true ↔
      exOrder.status ≠ "Delivered" ∧
        ∃ ed, exOrder.est_delivery = some ed ∧ dateAbs ed < tsAbs exNow :=
  (C3_blocks_and_delay_flag exDb exNow "  cust_001 " exCust [] (by decide) (by decide)).2.2
    (exOrder, some exProd) (by decide)

/-- C4: the dataframe formatter displays exactly `min(total_rows, cap)`
record blocks, its header opens with the full row count, and when the cap is
exceeded the output ends in a more-records suffix naming exactly
`total_rows - cap`. -/
theorem C4_dataframe_truncation (df : DataFrame) (cap : Nat) :
    (fdo_blocks df cap).length = min df.rows.length cap
    ∧ format_dataframe_output df cap =
        "📊 Total Records: " ++ toString df.rows.length ++ "\n" ++
          ((if cap < df.rows.length then "📋 Showing first " ++ toString cap ++ " rows\n" else "") ++
            (sep70 ++ "\n\n" ++ (strConcat (fdo_blocks df cap) ++
              (if cap < df.rows.length then
                "⋯ and " ++ toString (df.rows.length - cap) ++ " more records\n"
              else ""))))
    ∧ (cap < df.rows.length →
        ∃ before, format_dataframe_output df cap =
          before ++ ("⋯ and " ++ toString (df.rows.length - cap) ++ " more records\n")) := by
  refine ⟨by simp [fdo_blocks, Nat.min_comm], ?_, ?_⟩
  · simp only [format_dataframe_output, String.append_assoc]
  · intro h
    refine ⟨"📊 Total Records: " ++ toString df.rows.length ++ "\n" ++
      ("📋 Showing first " ++ toString cap ++ " rows\n") ++ (sep70 ++ "\n\n") ++
      strConcat (fdo_blocks df cap), ?_⟩
    simp only [format_dataframe_output, if_pos h, String.append_assoc]

/-- C4 witness: three rows displayed under a cap of two show two blocks, the
full count of three in the header, and a suffix naming one more record. -/
theorem C4_witness :
    (fdo_blocks exDf 2).length = min exDf.rows.length 2
    ∧ (2 < exDf.rows.length →
        ∃ before, format_dataframe_output exDf 2 =
          before ++ ("⋯ and " ++ toString (exDf.rows.length - 2) ++ " more records\n")) :=
  ⟨(C4_dataframe_truncation exDf 2).1, (C4_dataframe_truncation exDf 2).2.2⟩

/-- C5 counterexample: an absent (NaN) float value in a `weight` column
renders as `nan`, not `N/A` (a NaN in a money-named column likewise renders
`$nan`), because Python's `isinstance(value, float)` branch captures NaN
before the `pd.isna` check; and an integer cell in a numeric `stock_level`
column renders as the plain integer, not fixed to two decimals. -/
theorem C5_counterexample :
    renderCell "weight" (.flt .nan) = "nan"
    ∧ renderCell "weight" (.flt .nan) ≠ "N/A"
    ∧ renderCell "amount" (.flt .nan) = "$nan"
    ∧ renderCell "stock_level" (.int 5) = "5"
    ∧ renderCell "stock_level" (.int 5) ≠ "5.00" :=
  ⟨by decide, by decide, by decide, by decide, by decide⟩

/-- C5 (amended): per-cell rendering of the dataframe formatter: datetime
cells render zero-padded Y-m-d, or `N/A` when absent; finite float cells in
columns whose lowercased name contains `amount`, `price` or `revenue` render
as a dollar sign plus a thousands-grouped two-decimal number; other finite
float cells render as an ungrouped two-decimal number; a float NaN flows
through those same two float branches (rendering `$nan` or `nan`, never
`N/A`); non-float absent values render `N/A`; integer cells render as plain
integers. -/
theorem C5_cell_rendering (col : String) :
    (∀ d, renderCell col (.dt (some d)) = pad4 d.y ++ "-" ++ pad2 d.m ++ "-" ++ pad2 d.d)
    ∧ renderCell col (.dt none) = "N/A"
    ∧ renderCell col .null = "N/A"
    ∧ (∀ c : Int, isMoneyCol col = true → renderCell col (.flt (.cents c)) =
        "$" ++ ((if c < 0 then "-" else "") ++ groupNat (c.natAbs / 100) ++ "." ++
          pad2 (c.natAbs % 100)))
    ∧ (∀ c : Int, isMoneyCol col = false → renderCell col (.flt (.cents c)) =
        (if c < 0 then "-" else "") ++ toString (c.natAbs / 100) ++ "." ++ pad2 (c.natAbs % 100))
    ∧ (isMoneyCol col = true → renderCell col (.flt .nan) = "$nan")
    ∧ (isMoneyCol col = false → renderCell col (.flt .nan) = "nan")
    ∧ (∀ n : Int, renderCell col (.int n) = toString n) := by
  refine ⟨fun d => rfl, rfl, rfl, ?_, ?_, ?_, ?_, fun n => rfl⟩
  · intro c hm
    simp [renderCell, pyCurrency, pyComma2, hm, String.append_assoc]
  · intro c hm
    simp [renderCell, pyFixed2, hm]
  · intro hm
    simp [renderCell, pyCurrency, pyComma2, hm]
  · intro hm
    simp [renderCell, pyFixed2, hm]

/-- C5 witness: the money branch instantiated at an `amount` column and a
negative cell value. -/
theorem C5_witness :
    renderCell "amount" (.flt (.cents (-123456))) =
      "$" ++ ((if (-123456 : Int) < 0 then "-" else "") ++
        groupNat (Int.natAbs (-123456)  / 100) ++ "." ++ pad2 (Int.natAbs (-123456) % 100)) :=
  (C5_cell_rendering "amount").2.2.2.1 (-123456) (by decide)

set_option maxRecDepth 4000 in
/-- C6 counterexample: the integer scalar 1234 is numeric, yet
`execute_pandas_code_business` renders it through `format_scalar_output` as
the plain grouped number `1,234` with no currency sign anywhere in the
output. -/
theorem C6_counterexample :
    execute_pandas_code_business (.ok fun k => if k = "result" then some (.intV 1234) else none) =
      "📊 Result\n" ++ sep70 ++ "\n\n" ++ ("▸ " ++ "1,234" ++ "\n")
    ∧ strContains
        (execute_pandas_code_business
          (.ok fun k => if k = "result" then some (.intV 1234) else none)) "$" = false :=
  ⟨by decide, by decide⟩

set_option maxRecDepth 4000 in
/-- C6 (amended): `format_scalar_output` currency-formats float scalars
(dollar sign, thousands grouping, two decimals); an int scalar instead
renders as a thousands-grouped plain number with no currency sign; any other
value interpolates as raw text.  The worked example holds: summing the
amounts 100.00, 200.00 and 300.50 and returning the float through the
executor renders `$600.50`. -/
theorem C6_scalar_output (description : String) :
    (∀ x : PyFloat, format_scalar_output (.f x) description =
      "📊 " ++ description ++ "\n" ++ sep70 ++ "\n\n" ++ ("▸ " ++ ("$" ++ pyComma2 x) ++ "\n"))
    ∧ (∀ n : Int, format_scalar_output (.i n) description =
      "📊 " ++ description ++ "\n" ++ sep70 ++ "\n\n" ++ ("▸ " ++ groupInt n ++ "\n"))
    ∧ (∀ s : String, format_scalar_output (.raw s) description =
      "📊 " ++ description ++ "\n" ++ sep70 ++ "\n\n" ++ ("▸ " ++ s ++ "\n"))
    ∧ (∃ before after,
        execute_pandas_code_business
            (.ok fun k => if k = "result" then
              some (.floatV (seriesSum [.cents 10000, .cents 20000, .cents 30050])) else none) =
          before ++ "$600.50" ++ after) := by
  refine ⟨?_, ?_, ?_, "📊 Result\n" ++ sep70 ++ "\n\n" ++ "▸ ", "\n", by decide⟩
  · intro x
    simp only [format_scalar_output, pyCurrency, String.append_assoc]
  · intro n
    simp only [format_scalar_output, String.append_assoc]
  · intro s
    simp only [format_scalar_output, String.append_assoc]

/-- C7: the critical-delay check reports a line starting with `ALERT` iff
some order has a known `est_delivery` strictly before today with status
neither `Delivered` nor `Cancelled`; in that case the line carries the full
matching count, the first three matching order ids and the first three
affected customer names, and otherwise the check returns the fixed SUCCESS
line. -/
theorem C7_critical_delay_alert (db : Database) (today : Date) :
    (strStarts (check_for_critical_delays db today) "ALERT" = true ↔
      ∃ o ∈ db.orders, CritDelayedProp today o)
    ∧ ((∃ o ∈ db.orders, CritDelayedProp today o) →
        check_for_critical_delays db today =
          "ALERT: " ++ toString (db.orders.filter (critDelayed today)).length ++
            " orders are critically delayed!\n" ++
            "Affected Orders: " ++
            String.intercalate ", "
              (((db.orders.filter (critDelayed today)).map (fun o => o.order_id)).take 3) ++
            "\nAffected Customers: " ++
            String.intercalate ", "
              (((db.orders.filter (critDelayed today)).flatMap (nameMatches db.customers)).take 3))
    ∧ ((∀ o ∈ db.orders, ¬ CritDelayedProp today o) →
        check_for_critical_delays db today = "SUCCESS: No critical delivery delays found.") := by
  have hmem : (∃ o ∈ db.orders, CritDelayedProp today o) ↔
      db.orders.filter (critDelayed today) ≠ [] := by
    rw [ne_eq, List.filter_eq_nil_iff]
    push_neg
    constructor
    · rintro ⟨o, ho, hp⟩
      exact ⟨o, ho, (critDelayed_iff today o).mpr hp⟩
    · rintro ⟨o, ho, hp⟩
      exact ⟨o, ho, (critDelayed_iff today o).mp hp⟩
  by_cases hx : ∃ o ∈ db.orders, CritDelayedProp today o
  · have hne : db.orders.filter (critDelayed today) ≠ [] := hmem.mp hx
    have hE : (db.orders.filter (critDelayed today)).isEmpty = false := by
      cases hl : db.orders.filter (critDelayed today) with
      | nil => exact absurd hl hne
      | cons a l => rfl
    have halert : check_for_critical_delays db today =
        "ALERT: " ++ toString (db.orders.filter (critDelayed today)).length ++
          " orders are critically delayed!\n" ++
          "Affected Orders: " ++
          String.intercalate ", "
            (((db.orders.filter (critDelayed today)).map (fun o => o.order_id)).take 3) ++
          "\nAffected Customers: " ++
          String.intercalate ", "
            (((db.orders.filter (critDelayed today)).flatMap (nameMatches db.customers)).take 3) := by
      simp only [check_for_critical_delays, hE, Bool.false_eq_true, if_false]
    refine ⟨⟨fun _ => hx, fun _ => ?_⟩, fun _ => halert, fun hno => absurd hx ?_⟩
    · rw [halert]
      refine strStarts_of_eq_append _ _
        (": " ++ toString (db.orders.filter (critDelayed today)).length ++
          " orders are critically delayed!\n" ++
          "Affected Orders: " ++
          String.intercalate ", "
            (((db.orders.filter (critDelayed today)).map (fun o => o.order_id)).take 3) ++
          "\nAffected Customers: " ++
          String.intercalate ", "
            (((db.orders.filter (critDelayed today)).flatMap (nameMatches db.customers)).take 3))
        ?_
      simp only [String.append_assoc]
      rfl
    · push_neg
      intro o ho hp
      exact hno o ho hp
  · have hnil : db.orders.filter (critDelayed today) = [] := by
      by_contra hne
      exact hx (hmem.mpr hne)
    have hsucc : check_for_critical_delays db today =
        "SUCCESS: No critical delivery delays found." := by
      simp only [check_for_critical_delays, hnil, List.isEmpty_nil, if_true]
    refine ⟨⟨fun hs => absurd ?_ hx, fun hex => absurd hex hx⟩, fun hex => absurd hex hx,
      fun _ => hsucc⟩
    rw [hsucc] at hs
    exact absurd hs (by decide)

/-- C7 witness: a pending order past its estimated delivery makes the check
classify as ALERT. -/
theorem C7_witness :
    strStarts (check_for_critical_delays exDb2 ⟨2026, 10, 1⟩) "ALERT" = true :=
  (C7_critical_delay_alert exDb2 ⟨2026, 10, 1⟩).1.mpr
    ⟨exOrder2, by decide, ⟨⟨2026, 9, 20⟩, rfl, by decide⟩, by decide, by decide⟩

/-- C10: whenever the snippet leaves `result` bound to a pandas Series, the
executor dispatches it to `format_series_output` under the default semantic
name `Value`; that name contains neither `amount` nor `revenue`, so every
float entry renders as the plain thousands-grouped two-decimal number and
never as currency. -/
theorem C10_series_plain_rendering (env : String → Option ResultValue) (s : Series)
    (h : env "result" = some (.series s)) :
    execute_pandas_code_business (.ok env) = format_series_output s "Value"
    ∧ (∀ x : PyFloat, renderSeriesValue "Value" (.flt x) = pyComma2 x)
    ∧ (∀ x : PyFloat, renderSeriesValue "Value" (.flt x) ≠ pyCurrency x) := by
  have hplain : ∀ x : PyFloat, renderSeriesValue "Value" (.flt x) = pyComma2 x := by
    intro x
    simp only [renderSeriesValue]
    rw [if_neg (by decide)]
  refine ⟨?_, hplain, fun x hcur => ?_⟩
  · simp only [execute_pandas_code_business, h]
  · rw [hplain x] at hcur
    exact ne_dollar_prepend (pyComma2 x) hcur

/-- C10 witness: a one-entry Series of a float amount dispatched through the
executor renders through `format_series_output` under the name `Value`. -/
theorem C10_witness :
    execute_pandas_code_business
        (.ok fun k => if k = "result" then some (.series ⟨[("West", .flt (.cents 123456))]⟩) else none)
      = format_series_output ⟨[("West", .flt (.cents 123456))]⟩ "Value"
    ∧ (∀ x : PyFloat, renderSeriesValue "Value" (.flt x) = pyComma2 x)
    ∧ (∀ x : PyFloat, renderSeriesValue "Value" (.flt x) ≠ pyCurrency x) :=
  C10_series_plain_rendering _ _ rfl

end ABI
